import Mathlib

/-!
Verification model of `dps_jupyter_server_extension/handlers.py`.

The module is a thin HTTP gateway: each route handler resolves the MAAP
environment from the inbound request's host, optionally parses query
parameters, invokes one remote `maap-py` client call, and writes a JSON
envelope `{status_code, response}` with `self.finish`.

We embed the handler bodies as pure functions over an explicit request
(host, uri, byte-encoded arguments), an explicit configuration source, and
an explicit remote-call result.

Modelling conventions:
* Python byte strings are `List Nat` (byte values); decoded text that only
  flows into the remote call is kept as the list of decoded code points.
* A Python exception that escapes `get` is `HandlerOutcome.propagated e`;
  a call `self.finish(d)` that terminates the request is
  `HandlerOutcome.finished d`.
* `resp.json()` returns a parsed JSON value the gateway never inspects, so
  handlers are polymorphic in the parsed-JSON type `J`; `json = none`
  models `resp.json()` raising on a non-JSON body.
* The source reads `maap_environments.json` lazily inside
  `get_maap_config` (memoized with `functools.lru_cache`); we model the
  load outcome as an `Option (List EnvEntry)` argument (`none` = the file
  is missing or malformed and `open`/`json.load` raises), threaded through
  `maap_api` to each handler.  Memoization does not change the value
  computed and is not modelled.
-/

/-- One record of `maap_environments.json`, restricted to the three fields
the gateway reads (`default_host`, `ade_server`, `api_server`). -/
structure EnvEntry where
  default_host : Bool
  ade_server : String
  api_server : String
deriving DecidableEq

/-- Python's `needle in hay` for strings: `needle` occurs as a contiguous
substring of `hay`. -/
def str_in (needle hay : String) : Bool :=
  hay.toList.tails.any (fun t => needle.toList.isPrefixOf t)

/-- Embedding of `get_maap_config(host)` (handlers.py lines 17-27), with
the loaded JSON list passed explicitly:

    match = next((x for x in data if host in x['ade_server']), None)
    maap_config = next((x for x in data if x['default_host'] == True), None)
                  if match is None else match
    return maap_config
-/
def get_maap_config (data : List EnvEntry) (host : String) : Option EnvEntry :=
  match data.find? (fun x => str_in host x.ade_server) with
  | some m => some m
  | none => data.find? (fun x => x.default_host == true)

/-- The resolver as the spec's sentence words it (for refinement
comparison with `get_maap_config`): first entry one of whose host patterns
is a substring of the host, default entry otherwise.  The entry's pattern
set is its `ade_server` string. -/
def get_maap_config_specworded (data : List EnvEntry) (host : String) : Option EnvEntry :=
  match data.find? (fun x => str_in x.ade_server host) with
  | some m => some m
  | none => data.find? (fun x => x.default_host == true)

/-- Python exceptions that the handlers can raise or catch. -/
inductive PyError where
  /-- `open`/`json.load` raised inside `get_maap_config`: the
  configuration file is missing or malformed. -/
  | configLoadError
  /-- `TypeError`: subscripting `None` in `maap_api`, or calling the
  integer `logging.ERROR` in an `except` block. -/
  | typeError
  /-- `IndexError`: `value[0]` on an empty value list in `parse_params`. -/
  | indexError
  /-- `UnicodeDecodeError`: `value[0].decode("utf-8")` failed. -/
  | encodingError
deriving DecidableEq

/-- Embedding of `maap_api(host)` (handlers.py lines 30-31):
`get_maap_config(host)['api_server']`.  A config-load failure surfaces
here as `configLoadError`; if `get_maap_config` returned `None`,
subscripting it raises `TypeError`. -/
def maap_api (cfgSrc : Option (List EnvEntry)) (host : String) : Except PyError String :=
  match cfgSrc with
  | none => Except.error PyError.configLoadError
  | some data =>
      match get_maap_config data host with
      | none => Except.error PyError.typeError
      | some cfg => Except.ok cfg.api_server

/-- Strict UTF-8 decoding of a byte string to its code points, as Python's
`bytes.decode("utf-8")`: rejects stray continuation bytes, overlong forms,
surrogates and code points above `0x10FFFF`.  `none` models
`UnicodeDecodeError`. -/
def utf8Decode : List Nat → Option (List Nat)
  | [] => some []
  | b :: rest =>
    if b < 0x80 then (utf8Decode rest).map (fun cs => b :: cs)
    else if b < 0xC2 then none
    else if b < 0xE0 then
      match rest with
      | b1 :: rest1 =>
        if 0x80 ≤ b1 ∧ b1 < 0xC0 then
          (utf8Decode rest1).map (fun cs => ((b - 0xC0) * 64 + (b1 - 0x80)) :: cs)
        else none
      | [] => none
    else if b < 0xF0 then
      match rest with
      | b1 :: b2 :: rest2 =>
        if (0x80 ≤ b1 ∧ b1 < 0xC0) ∧ (0x80 ≤ b2 ∧ b2 < 0xC0) then
          let cp := (b - 0xE0) * 4096 + (b1 - 0x80) * 64 + (b2 - 0x80)
          if cp < 0x800 ∨ (0xD800 ≤ cp ∧ cp < 0xE000) then none
          else (utf8Decode rest2).map (fun cs => cp :: cs)
        else none
      | _ => none
    else if b < 0xF5 then
      match rest with
      | b1 :: b2 :: b3 :: rest3 =>
        if (0x80 ≤ b1 ∧ b1 < 0xC0) ∧ (0x80 ≤ b2 ∧ b2 < 0xC0) ∧ (0x80 ≤ b3 ∧ b3 < 0xC0) then
          let cp := (b - 0xF0) * 262144 + (b1 - 0x80) * 4096 + (b2 - 0x80) * 64 + (b3 - 0x80)
          if cp < 0x10000 ∨ 0x10FFFF < cp then none
          else (utf8Decode rest3).map (fun cs => cp :: cs)
        else none
      | _ => none
    else none

/-- Embedding of `parse_params(args)` (handlers.py lines 34-38):

    params = {}
    for key, value in args.items():
        params[key] = value[0].decode("utf-8")
    return params

The first raised exception wins: `IndexError` for an empty value list,
`UnicodeDecodeError` for a value that is not valid UTF-8. -/
def parse_params : List (String × List (List Nat)) → Except PyError (List (String × List Nat))
  | [] => Except.ok []
  | (k, vs) :: rest =>
    match vs with
    | [] => Except.error PyError.indexError
    | v :: _ =>
      match utf8Decode v with
      | none => Except.error PyError.encodingError
      | some s => (parse_params rest).map (fun l => (k, s) :: l)

/-- The remote client's response object, polymorphic in the parsed-JSON
type `J`.  `json = none` models `resp.json()` raising. -/
structure RemoteResponse (J : Type) where
  status_code : Nat
  ok : Bool
  text : String
  json : Option J
deriving DecidableEq

/-- Outcome of one remote client call: it returned a response object, or
it raised (network failure, timeout, ...). -/
inductive RemoteResult (J : Type) where
  | returns (r : RemoteResponse J)
  | raises
deriving DecidableEq

/-- The `response` field of the envelope passed to `self.finish`: either a
parsed JSON value (`resp.json()`) or a raw string (`resp.text` or the
formatted failure message). -/
inductive RespBody (J : Type) where
  | json (j : J)
  | text (s : String)
deriving DecidableEq

/-- The dictionary written by `self.finish`. -/
structure Envelope (J : Type) where
  status_code : Nat
  response : RespBody J
deriving DecidableEq

/-- How one execution of a handler's `get` ends: either `self.finish(d)`
terminated the request with body `d`, or an exception escaped `get` and
propagates to the hosting server's default error handling. -/
inductive HandlerOutcome (J : Type) where
  | finished (e : Envelope J)
  | propagated (err : PyError)
deriving DecidableEq

/-- The message built in every `except` block:
`"Failed to query endpoint: " + self.request.host + self.request.uri`. -/
def failure_msg (host uri : String) : String :=
  "Failed to query endpoint: " ++ host ++ uri

/-- Embedding of the shared `except` block:

    msg = "Failed to query endpoint: " + self.request.host + self.request.uri
    logging.ERROR(msg)
    self.finish({"status_code": 500, "response": msg})

`logging.ERROR` is the integer level constant 40, not a function, so
`logging.ERROR(msg)` raises `TypeError: 'int' object is not callable`
inside the `except` block; the `self.finish` line (which would write
`⟨500, RespBody.text (failure_msg host uri)⟩`) is never reached and the
`TypeError` escapes `get`. -/
def except_block (J : Type) (host uri : String) : HandlerOutcome J :=
  .propagated PyError.typeError

/-- Shared embedding of the `get` bodies of `RevokeJobHandler`,
`JobResultHandler`, `JobMetricsHandler`, `JobStatusHandler` and
`ListJobsHandler` (handlers.py lines 81-226): the five classes are
textually identical except for the parameter key (`"job_id"` or
`"username"`) and which remote method is invoked with the parameter.
Note `maap = MAAP(maap_api(host))` and `params = parse_params(...)` run
before the `try`, so their exceptions are not caught; `params[key]` is
evaluated inside the `try`, so its `KeyError` is. -/
def param_route_get {J : Type} (cfgSrc : Option (List EnvEntry)) (host uri : String)
    (args : List (String × List (List Nat))) (key : String)
    (remote : List Nat → RemoteResult J) : HandlerOutcome J :=
  match maap_api cfgSrc host with
  | Except.error e => .propagated e
  | Except.ok _ =>
      match parse_params args with
      | Except.error e => .propagated e
      | Except.ok params =>
          match params.lookup key with
          | none => except_block J host uri
          | some pv =>
              match remote pv with
              | RemoteResult.raises => except_block J host uri
              | RemoteResult.returns r =>
                  if r.ok then
                    match r.json with
                    | some j => .finished ⟨r.status_code, RespBody.json j⟩
                    | none => except_block J host uri
                  else .finished ⟨r.status_code, RespBody.text r.text⟩

/-- `RevokeJobHandler.get` (handlers.py lines 94-108); the remote call is
`maap.deleteJob(params["job_id"])`. -/
def RevokeJobHandler_get {J : Type} (cfgSrc : Option (List EnvEntry)) (host uri : String)
    (args : List (String × List (List Nat))) (remote : List Nat → RemoteResult J) :
    HandlerOutcome J :=
  param_route_get cfgSrc host uri args "job_id" remote

/-- `JobResultHandler.get`; the remote call is `maap.getJobResult(params["job_id"])`. -/
def JobResultHandler_get {J : Type} (cfgSrc : Option (List EnvEntry)) (host uri : String)
    (args : List (String × List (List Nat))) (remote : List Nat → RemoteResult J) :
    HandlerOutcome J :=
  param_route_get cfgSrc host uri args "job_id" remote

/-- `JobMetricsHandler.get`; the remote call is `maap.getJobMetrics(params["job_id"])`. -/
def JobMetricsHandler_get {J : Type} (cfgSrc : Option (List EnvEntry)) (host uri : String)
    (args : List (String × List (List Nat))) (remote : List Nat → RemoteResult J) :
    HandlerOutcome J :=
  param_route_get cfgSrc host uri args "job_id" remote

/-- `JobStatusHandler.get`; the remote call is `maap.getJobStatus(params["job_id"])`. -/
def JobStatusHandler_get {J : Type} (cfgSrc : Option (List EnvEntry)) (host uri : String)
    (args : List (String × List (List Nat))) (remote : List Nat → RemoteResult J) :
    HandlerOutcome J :=
  param_route_get cfgSrc host uri args "job_id" remote

/-- `ListJobsHandler.get`; the remote call is `maap.listJobs(params["username"])`. -/
def ListJobsHandler_get {J : Type} (cfgSrc : Option (List EnvEntry)) (host uri : String)
    (args : List (String × List (List Nat))) (remote : List Nat → RemoteResult J) :
    HandlerOutcome J :=
  param_route_get cfgSrc host uri args "username" remote

/-- `DescribeCapabilitiesHandler.get` (handlers.py lines 52-61): no
parameter extraction, and the returned response is passed through
unconditionally as `{"status_code": resp.status_code, "response": resp.text}`
with no `resp.ok` branch.  The request's arguments are in scope but
unread. -/
def DescribeCapabilitiesHandler_get {J : Type} (cfgSrc : Option (List EnvEntry))
    (host uri : String) (args : List (String × List (List Nat)))
    (remote : Unit → RemoteResult J) : HandlerOutcome J :=
  match maap_api cfgSrc host with
  | Except.error e => .propagated e
  | Except.ok _ =>
      match remote () with
      | RemoteResult.raises => except_block J host uri
      | RemoteResult.returns r => .finished ⟨r.status_code, RespBody.text r.text⟩

/-- `SubmitJobHandler.get` (handlers.py lines 64-77): no `parse_params`
call, and the remote call is `maap.submitJob()` with no arguments — no
data from the inbound request (whose arguments are in scope but unread)
is forwarded to the remote submit call. -/
def SubmitJobHandler_get {J : Type} (cfgSrc : Option (List EnvEntry))
    (host uri : String) (args : List (String × List (List Nat)))
    (remote : Unit → RemoteResult J) : HandlerOutcome J :=
  match maap_api cfgSrc host with
  | Except.error e => .propagated e
  | Except.ok _ =>
      match remote () with
      | RemoteResult.raises => except_block J host uri
      | RemoteResult.returns r =>
          if r.ok then
            match r.json with
            | some j => .finished ⟨r.status_code, RespBody.json j⟩
            | none => except_block J host uri
          else .finished ⟨r.status_code, RespBody.text r.text⟩

/-- Fixture: a configuration entry whose `ade_server` is exactly the
request host used in concrete evaluations. -/
def entMy : EnvEntry := ⟨true, "myhost", "api"⟩

/-- Fixture: entry whose `ade_server` strictly contains the host `"abc"`. -/
def cexA : EnvEntry := ⟨false, "xabcy", "A"⟩

/-- Fixture: the default entry, with an `ade_server` unrelated to `"abc"`. -/
def cexB : EnvEntry := ⟨true, "zzz", "B"⟩

/-- Fixture configuration list for the resolver theorems. -/
def cexData : List EnvEntry := [cexA, cexB]

/-- Claim C1 (status: the code contradicts the intended behavior).  When
the remote call raises (e.g. a connection failure), the `except` block is
entered, but `logging.ERROR(msg)` raises `TypeError` (`logging.ERROR` is
the integer 40), so the handler writes no envelope at all: the outcome is
a propagated `TypeError`, never `finished` with the documented 500
envelope. -/
theorem revoke_remote_error_no_envelope :
    RevokeJobHandler_get (some [entMy]) "myhost" "/dps-jupyter-server-extension/revokeJob"
        [("job_id", [[97]])] (fun _ => RemoteResult.raises (J := Nat)) =
      HandlerOutcome.propagated PyError.typeError ∧
    ∀ env : Envelope Nat,
      RevokeJobHandler_get (some [entMy]) "myhost" "/dps-jupyter-server-extension/revokeJob"
          [("job_id", [[97]])] (fun _ => RemoteResult.raises) ≠
        HandlerOutcome.finished env :=
  ⟨rfl, fun _ h => nomatch h⟩

/-- Claim C6 (status: the code contradicts the intended behavior).  A
`revokeJob` request without a `job_id` argument raises `KeyError` inside
the `try`, reaching the `except` block — where `logging.ERROR(msg)`
raises `TypeError`, so no 500 envelope naming host and path is ever
written; the `TypeError` propagates instead. -/
theorem revoke_missing_job_id_no_envelope :
    RevokeJobHandler_get (some [entMy]) "myhost" "/dps-jupyter-server-extension/revokeJob" []
        (fun _ => RemoteResult.returns ⟨200, true, "t", some (0 : Nat)⟩) =
      HandlerOutcome.propagated PyError.typeError ∧
    ∀ env : Envelope Nat,
      RevokeJobHandler_get (some [entMy]) "myhost" "/dps-jupyter-server-extension/revokeJob" []
          (fun _ => RemoteResult.returns ⟨200, true, "t", some 0⟩) ≠
        HandlerOutcome.finished env :=
  ⟨rfl, fun _ h => nomatch h⟩

/-- Claim C2, counterexample.  A parameter value that is not valid UTF-8
(single byte 0xFF) makes `parse_params` raise — but `parse_params` runs
before the `try` block, so the `UnicodeDecodeError` is not caught and
propagates to the hosting server's default error handling instead of
being converted to a `GatewayResponseEnvelope`. -/
theorem encoding_error_propagates_cex :
    RevokeJobHandler_get (some [entMy]) "myhost" "/x" [("job_id", [[255]])]
        (fun _ => RemoteResult.raises (J := Nat)) =
      HandlerOutcome.propagated PyError.encodingError :=
  rfl

/-- Claim C2 as amended: with the configuration resolving, any error
raised by `parse_params` (an `EncodingError` for non-UTF-8 input, an
`IndexError` for an empty value list) occurs before the route's `try`
block and propagates out of the handler uncaught; it is not converted to
an envelope. -/
theorem parse_error_propagates {J : Type} (cfgSrc : Option (List EnvEntry))
    (host uri key : String) (args : List (String × List (List Nat)))
    (remote : List Nat → RemoteResult J) (api : String) (e : PyError)
    (hc : maap_api cfgSrc host = Except.ok api)
    (hp : parse_params args = Except.error e) :
    param_route_get cfgSrc host uri args key remote = HandlerOutcome.propagated e := by
  simp only [param_route_get, hc, hp]

/-- Witness for `parse_error_propagates` at a concrete request whose
`job_id` value is the invalid UTF-8 byte sequence `[200]`. -/
theorem parse_error_propagates_witness :
    param_route_get (some [entMy]) "myhost" "/x" [("job_id", [[200]])] "job_id"
        (fun _ => RemoteResult.raises (J := Nat)) =
      HandlerOutcome.propagated PyError.encodingError :=
  parse_error_propagates (some [entMy]) "myhost" "/x" "job_id" [("job_id", [[200]])]
    (fun _ => RemoteResult.raises) "api" PyError.encodingError rfl rfl

/-- Claim C7, counterexample.  Two `submitJob` requests whose inbound
argument payloads differ produce identical handler executions: the source
invokes `maap.submitJob()` with no arguments, so no job-submission
payload from the inbound request reaches the remote submit call. -/
theorem submit_ignores_payload_cex :
    SubmitJobHandler_get (some [entMy]) "myhost" "/x" [("payload", [[97]])]
        (fun _ => RemoteResult.raises (J := Nat)) =
      SubmitJobHandler_get (some [entMy]) "myhost" "/x" [("payload", [[98]])]
        (fun _ => RemoteResult.raises) ∧
    ([("payload", [[97]])] : List (String × List (List Nat))) ≠ [("payload", [[98]])] :=
  ⟨rfl, by decide⟩

/-- Claim C7 as amended: `submitJob` extracts no parameters (it never
calls `parse_params`) and forwards nothing from the inbound request to
the remote submit call, which is invoked with no arguments; the handler's
outcome is therefore independent of the request's argument payload. -/
theorem submit_payload_independent {J : Type} (cfgSrc : Option (List EnvEntry))
    (host uri : String) (args args' : List (String × List (List Nat)))
    (remote : Unit → RemoteResult J) :
    SubmitJobHandler_get cfgSrc host uri args remote =
      SubmitJobHandler_get cfgSrc host uri args' remote :=
  rfl

/-- Claim C8, counterexample.  With the configuration source unavailable
(`open`/`json.load` raising), a `revokeJob` request's own execution
performs the load and fails: the load failure surfaces during the
handling of an individual request, not at process initialization, and
propagates out of the handler. -/
theorem config_load_cex :
    RevokeJobHandler_get none "myhost" "/x" [("job_id", [[97]])]
        (fun _ => RemoteResult.raises (J := Nat)) =
      HandlerOutcome.propagated PyError.configLoadError :=
  rfl

/-- Claim C8 as amended: the configuration is loaded lazily inside request
handling (`get_maap_config` is called from each `get`), so a load failure
surfaces during the first request that needs it and propagates out of
every route's handler uncaught; no request-time recovery converts it to
an envelope. -/
theorem config_load_error_request_time {J : Type} (host uri key : String)
    (args : List (String × List (List Nat))) (remote : List Nat → RemoteResult J)
    (remoteU : Unit → RemoteResult J) :
    param_route_get none host uri args key remote =
        HandlerOutcome.propagated PyError.configLoadError ∧
      SubmitJobHandler_get none host uri args remoteU =
        HandlerOutcome.propagated PyError.configLoadError ∧
      DescribeCapabilitiesHandler_get none host uri args remoteU =
        HandlerOutcome.propagated PyError.configLoadError :=
  ⟨rfl, rfl, rfl⟩

/-- Helper: `find?` returns the head of the first segment element
satisfying the predicate when everything before it fails it. -/
theorem find?_first {α : Type} (p : α → Bool) (l₁ l₂ : List α) (a : α)
    (h₁ : ∀ x ∈ l₁, p x = false) (h₂ : p a = true) :
    (l₁ ++ a :: l₂).find? p = some a := by
  induction l₁ with
  | nil => simp [List.find?_cons_of_pos, h₂]
  | cons b t ih =>
      have hb : p b = false := h₁ b (by simp)
      simp only [List.cons_append]
      rw [List.find?_cons_of_neg _ (by simp [hb])]
      exact ih (fun x hx => h₁ x (by simp [hx]))

/-- Claim C3, counterexample.  For host `"abc"` and the configuration
`cexData`, the code returns `cexA` — whose `ade_server` `"xabcy"` merely
contains the host, is itself no substring of the host, and is not the
default — while the spec-worded resolver (pattern a substring of the
host, else the default) returns the default entry `cexB`: the code
matches in the opposite direction of the claim. -/
theorem resolve_direction_cex :
    get_maap_config cexData "abc" = some cexA ∧
    str_in cexA.ade_server "abc" = false ∧
    cexA.default_host = false ∧
    get_maap_config_specworded cexData "abc" = some cexB ∧
    get_maap_config cexData "abc" ≠ get_maap_config_specworded cexData "abc" := by
  refine ⟨by decide, by decide, by decide, by decide, by decide⟩

/-- Claim C3 as amended: `get_maap_config` scans the configuration list
for the first entry whose `ade_server` string contains the host as a
substring and returns it; when no entry's `ade_server` contains the host,
it returns the first entry whose `default_host` flag is true. -/
theorem get_maap_config_characterization (data l₁ l₂ : List EnvEntry) (e : EnvEntry)
    (host : String) :
    (data = l₁ ++ e :: l₂ →
      (∀ x ∈ l₁, str_in host x.ade_server = false) →
      str_in host e.ade_server = true →
      get_maap_config data host = some e) ∧
    ((∀ x ∈ data, str_in host x.ade_server = false) →
      data = l₁ ++ e :: l₂ →
      (∀ x ∈ l₁, x.default_host = false) →
      e.default_host = true →
      get_maap_config data host = some e) := by
  constructor
  · intro hdata h₁ h₂
    subst hdata
    unfold get_maap_config
    rw [find?_first _ _ _ _ h₁ h₂]
  · intro hall hdata h₁ h₂
    unfold get_maap_config
    rw [List.find?_eq_none.mpr (fun x hx => by simp [hall x hx])]
    subst hdata
    rw [find?_first _ _ _ _ (fun x hx => by simp [h₁ x hx]) (by simp [h₂])]

/-- Witness for `get_maap_config_characterization`: host `"zzz"` is
contained in `cexB.ade_server` (first conjunct), and host `"qq"` matches
no entry so the first default entry `cexB` is returned (second
conjunct). -/
theorem get_maap_config_characterization_witness :
    get_maap_config cexData "zzz" = some cexB ∧
    get_maap_config cexData "qq" = some cexB :=
  ⟨(get_maap_config_characterization cexData [cexA] [] cexB "zzz").1 rfl
      (by decide) (by decide),
    (get_maap_config_characterization cexData [cexA] [] cexB "qq").2 (by decide) rfl
      (by decide) (by decide)⟩

/-- Claim C4: in every route with an `resp.ok` branch (the five
`param_route_get` routes and `submitJob`), a returned response that the
remote reports as success yields `{status_code: resp.status_code,
response: resp.json()}` with the parsed JSON body, and a returned
response the remote reports as failure yields `{status_code:
resp.status_code, response: resp.text}` with the raw text passed through
verbatim — the remote's own status code, never a 500. -/
theorem branch_envelopes {J : Type} (cfgSrc : Option (List EnvEntry))
    (host uri key : String) (args : List (String × List (List Nat)))
    (remote : List Nat → RemoteResult J) (remoteU : Unit → RemoteResult J)
    (api : String) (params : List (String × List Nat)) (pv : List Nat)
    (r : RemoteResponse J)
    (hc : maap_api cfgSrc host = Except.ok api)
    (hp : parse_params args = Except.ok params)
    (hk : params.lookup key = some pv)
    (hr : remote pv = RemoteResult.returns r)
    (hrU : remoteU () = RemoteResult.returns r) :
    (∀ j : J, r.json = some j → r.ok = true →
      param_route_get cfgSrc host uri args key remote =
        HandlerOutcome.finished ⟨r.status_code, RespBody.json j⟩) ∧
    (r.ok = false →
      param_route_get cfgSrc host uri args key remote =
        HandlerOutcome.finished ⟨r.status_code, RespBody.text r.text⟩) ∧
    (∀ j : J, r.json = some j → r.ok = true →
      SubmitJobHandler_get cfgSrc host uri args remoteU =
        HandlerOutcome.finished ⟨r.status_code, RespBody.json j⟩) ∧
    (r.ok = false →
      SubmitJobHandler_get cfgSrc host uri args remoteU =
        HandlerOutcome.finished ⟨r.status_code, RespBody.text r.text⟩) := by
  refine ⟨fun j hj ho => ?_, fun ho => ?_, fun j hj ho => ?_, fun ho => ?_⟩
  · simp only [param_route_get, hc, hp, hk, hr, ho, if_true, hj]
  · simp only [param_route_get, hc, hp, hk, hr, ho, Bool.false_eq_true, if_false]
  · simp only [SubmitJobHandler_get, hc, hrU, ho, if_true, hj]
  · simp only [SubmitJobHandler_get, hc, hrU, ho, Bool.false_eq_true, if_false]

/-- Fixture: a successful remote response with parsed JSON body `7`. -/
def respOK : RemoteResponse Nat := ⟨200, true, "body", some 7⟩

/-- Fixture: a failed remote response carrying an OGC-style XML error
document as raw text and no JSON body. -/
def respFail : RemoteResponse Nat := ⟨400, false, "<Error>bad id</Error>", none⟩

/-- Witness for `branch_envelopes`: the success response `respOK` yields
its parsed JSON with status 200, and the failure response `respFail`
yields its raw XML text with status 400 (not 500), on both the
`revokeJob`-shaped route and `submitJob`. -/
theorem branch_envelopes_witness :
    param_route_get (some [entMy]) "myhost" "/x" [("job_id", [[97]])] "job_id"
        (fun _ => RemoteResult.returns respOK) =
      HandlerOutcome.finished ⟨200, RespBody.json 7⟩ ∧
    param_route_get (some [entMy]) "myhost" "/x" [("job_id", [[97]])] "job_id"
        (fun _ => RemoteResult.returns respFail) =
      HandlerOutcome.finished ⟨400, RespBody.text "<Error>bad id</Error>"⟩ ∧
    SubmitJobHandler_get (some [entMy]) "myhost" "/x" [("job_id", [[97]])]
        (fun _ => RemoteResult.returns respOK) =
      HandlerOutcome.finished ⟨200, RespBody.json 7⟩ :=
  ⟨(branch_envelopes (some [entMy]) "myhost" "/x" "job_id" [("job_id", [[97]])]
      (fun _ => RemoteResult.returns respOK) (fun _ => RemoteResult.returns respOK)
      "api" [("job_id", [97])] [97] respOK rfl rfl rfl rfl rfl).1 7 rfl rfl,
    (branch_envelopes (some [entMy]) "myhost" "/x" "job_id" [("job_id", [[97]])]
      (fun _ => RemoteResult.returns respFail) (fun _ => RemoteResult.returns respFail)
      "api" [("job_id", [97])] [97] respFail rfl rfl rfl rfl rfl).2.1 rfl,
    (branch_envelopes (some [entMy]) "myhost" "/x" "job_id" [("job_id", [[97]])]
      (fun _ => RemoteResult.returns respOK) (fun _ => RemoteResult.returns respOK)
      "api" [("job_id", [97])] [97] respOK rfl rfl rfl rfl rfl).2.2.1 7 rfl rfl⟩

/-- Claim C5: when every argument has a nonempty value list whose first
value is valid UTF-8, `parse_params` succeeds and returns a mapping with
exactly the input's keys (in order), each bound to the decoded first
value of its list. -/
theorem parse_params_extracts (args : List (String × List (List Nat)))
    (h : ∀ kv ∈ args, ∃ b rest cps, kv.2 = b :: rest ∧ utf8Decode b = some cps) :
    ∃ l, parse_params args = Except.ok l ∧
      l.map Prod.fst = args.map Prod.fst ∧
      List.Forall₂
        (fun (kv : String × List (List Nat)) (p : String × List Nat) =>
          p.1 = kv.1 ∧ ∃ b rest, kv.2 = b :: rest ∧ utf8Decode b = some p.2)
        args l := by
  induction args with
  | nil => exact ⟨[], rfl, rfl, List.Forall₂.nil⟩
  | cons kv rest ih =>
      obtain ⟨k, vs⟩ := kv
      obtain ⟨b, br, cps, hv, hd⟩ := h (k, vs) (by simp)
      obtain ⟨l, hl, hmap, hrel⟩ := ih (fun x hx => h x (by simp [hx]))
      refine ⟨(k, cps) :: l, ?_, ?_, ?_⟩
      · simp only at hv
        simp [parse_params, hv, hd, hl, Except.map]
      · simpa using hmap
      · exact List.Forall₂.cons ⟨rfl, b, br, hv, hd⟩ hrel

/-- Witness for `parse_params_extracts` on the concrete argument mapping
`{"job_id": [b"hi"]}` (bytes 104, 105). -/
theorem parse_params_extracts_witness :
    ∃ l, parse_params [("job_id", [[104, 105]])] = Except.ok l ∧
      l.map Prod.fst = [("job_id", [[104, 105]])].map Prod.fst ∧
      List.Forall₂
        (fun (kv : String × List (List Nat)) (p : String × List Nat) =>
          p.1 = kv.1 ∧ ∃ b rest, kv.2 = b :: rest ∧ utf8Decode b = some p.2)
        [("job_id", [[104, 105]])] l :=
  parse_params_extracts [("job_id", [[104, 105]])]
    (by
      intro kv hkv
      simp only [List.mem_singleton] at hkv
      subst hkv
      exact ⟨[104, 105], [], [104, 105], rfl, rfl⟩)

/-- Claim C9: `describeCapabilities` treats every returned remote
response as success: whatever `resp.ok` is, the envelope passes through
the remote's native status code and raw text body, with no
success/failure branch. -/
theorem describe_passthrough {J : Type} (cfgSrc : Option (List EnvEntry))
    (host uri : String) (args : List (String × List (List Nat)))
    (remote : Unit → RemoteResult J) (api : String) (r : RemoteResponse J)
    (hc : maap_api cfgSrc host = Except.ok api)
    (hr : remote () = RemoteResult.returns r) :
    DescribeCapabilitiesHandler_get cfgSrc host uri args remote =
      HandlerOutcome.finished ⟨r.status_code, RespBody.text r.text⟩ := by
  simp only [DescribeCapabilitiesHandler_get, hc, hr]

/-- Witness for `describe_passthrough` at a response the remote itself
marks as failed (`ok = false`, status 503): the envelope still carries
the native status code and raw text. -/
theorem describe_passthrough_witness :
    DescribeCapabilitiesHandler_get (some [entMy]) "myhost" "/x" []
        (fun _ => RemoteResult.returns (⟨503, false, "<down/>", none⟩ : RemoteResponse Nat)) =
      HandlerOutcome.finished ⟨503, RespBody.text "<down/>"⟩ :=
  describe_passthrough (some [entMy]) "myhost" "/x" []
    (fun _ => RemoteResult.returns ⟨503, false, "<down/>", none⟩) "api"
    ⟨503, false, "<down/>", none⟩ rfl rfl

/-- Claim C10: when no entry's `ade_server` contains the host and no
entry is flagged default, resolution returns `none` and deriving the API
base URL fails (the `TypeError` of subscripting `None`); and whenever
some entry is flagged default, resolution is total (returns some entry)
for every host. -/
theorem resolve_requires_default (data : List EnvEntry) (host : String)
    (h₁ : ∀ x ∈ data, str_in host x.ade_server = false)
    (h₂ : ∀ x ∈ data, x.default_host = false) :
    get_maap_config data host = none ∧
    maap_api (some data) host = Except.error PyError.typeError ∧
    ∀ (data' : List EnvEntry) (host' : String),
      (∃ d ∈ data', d.default_host = true) →
      (get_maap_config data' host').isSome = true := by
  have hf : data.find? (fun x => str_in host x.ade_server) = none :=
    List.find?_eq_none.mpr (fun x hx => by simp [h₁ x hx])
  have hg : data.find? (fun x => x.default_host == true) = none :=
    List.find?_eq_none.mpr (fun x hx => by simp [h₂ x hx])
  have hnone : get_maap_config data host = none := by
    unfold get_maap_config
    rw [hf, hg]
  refine ⟨hnone, ?_, ?_⟩
  · simp only [maap_api, hnone]
  · intro data' host' ⟨d, hd, hdef⟩
    unfold get_maap_config
    cases hfind : data'.find? (fun x => str_in host' x.ade_server) with
    | some m => simp
    | none =>
        cases hq : data'.find? (fun x => x.default_host == true) with
        | some m => simp
        | none => exact absurd (List.find?_eq_none.mp hq d hd) (by simp [hdef])

/-- Witness for `resolve_requires_default`: a one-entry configuration
with no default and no match for host `"q"` resolves to `None` and makes
`maap_api` fail; the totality conjunct is exercised on `cexData` (whose
entry `cexB` is default) at the unmatched host `"qq2"`. -/
theorem resolve_requires_default_witness :
    get_maap_config [cexA] "q" = none ∧
    maap_api (some [cexA]) "q" = Except.error PyError.typeError ∧
    (get_maap_config cexData "qq2").isSome = true :=
  ⟨(resolve_requires_default [cexA] "q" (by decide) (by decide)).1,
    (resolve_requires_default [cexA] "q" (by decide) (by decide)).2.1,
    (resolve_requires_default [cexA] "q" (by decide) (by decide)).2.2 cexData "qq2"
      ⟨cexB, by decide, by decide⟩⟩
